import Mathlib

/-!
Verification of the Korean spellcheck HTTP wrapper
(src/spellcheck_server/app.py) against its specification.

The endpoint `check_spelling` receives a form field `text`, calls the
external capability `spell_checker.check(text)` inside a try block, reads
the attributes `checked` and `errors` of the returned object, and shapes a
JSON response.  Any exception raised inside the try block (the call itself,
or either attribute access) is caught and turned into a degraded response
with HTTP status 500 whose body echoes the original text and carries the
string representation of the exception.

The embedding below models:
  - JSON values as an inductive `Json` (only the constructors the bodies use);
  - a Python attribute access that may raise, as `Attr`;
  - the object returned by the capability, as `PyCorrectionResult` whose
    attribute reads may each fail;
  - the behaviour of one call to the capability, as `CapOutcome`
    (the call raises, or it returns an object);
  - the endpoint body, as the pure function `check_spelling`, whose match
    structure mirrors the try/except: the `checked` attribute is read first
    (line `corrected = result.checked`), then `errors` is read while the
    success body is built, and the first failure anywhere in the block
    produces the degraded 500 response built from that failure's message.
-/

namespace SpellcheckServer

/-- A JSON value, restricted to the shapes the endpoint produces. -/
inductive Json where
  | str : String → Json
  | int : Int → Json
  | obj : List (String × Json) → Json

/-- Look a key up in a JSON object (first binding wins, as in a Python dict
literal with distinct keys); `none` on a non-object or a missing key. -/
def Json.getField : Json → String → Option Json
  | .obj fields, key => fields.lookup key
  | .str _, _ => none
  | .int _, _ => none

/-- An HTTP response as the endpoint builds it: a status code and a JSON
body (`JSONResponse(body)` defaults to status 200, `status_code=500`
overrides it). -/
structure Response where
  status : Nat
  body : Json

/-- Top-level field access on a response body. -/
def Response.field (r : Response) (key : String) : Option Json :=
  r.body.getField key

/-- View a JSON value as a string, when it is one. -/
def Json.asString : Json → Option String
  | .str s => some s
  | .int _ => none
  | .obj _ => none

/-- View a JSON value as an integer, when it is one. -/
def Json.asInt : Json → Option Int
  | .int n => some n
  | .str _ => none
  | .obj _ => none

/-- The keys of a JSON object, in order; empty for non-objects. -/
def Json.keys : Json → List String
  | .obj fields => fields.map Prod.fst
  | .str _ => []
  | .int _ => []

/-- A Python attribute read: it yields a value, or raises an exception
whose string representation is recorded. -/
inductive Attr (α : Type) where
  | ok : α → Attr α
  | raise : String → Attr α
  deriving DecidableEq, Repr

/-- The object returned by `spell_checker.check`: the endpoint reads its
`checked` and `errors` attributes, and on a malformed object either read
may itself raise. -/
structure PyCorrectionResult where
  checked : Attr String
  errors : Attr Int
  deriving DecidableEq, Repr

/-- One call to the external capability: either the call raises (network
failure, unavailable service, ...) with a message, or it returns an
object. -/
inductive CapOutcome where
  | raises : String → CapOutcome
  | returns : PyCorrectionResult → CapOutcome
  deriving DecidableEq, Repr

/-- The success body literal of app.py lines 20-28. -/
def successBody (corrected text : String) (errors : Int) : Json :=
  .obj [("corrected", .str corrected),
        ("original", .str text),
        ("result", .obj [("errata_count", .int errors)])]

/-- The degraded body literal of app.py lines 31-36: the original text is
echoed as `corrected`, and `error` holds `str(e)`. -/
def failureBody (text msg : String) : Json :=
  .obj [("corrected", .str text),
        ("original", .str text),
        ("error", .str msg)]

/-- The endpoint body (app.py lines 16-38).  The try block evaluates
`spell_checker.check(text)`, then `result.checked`, then `result.errors`;
the first exception anywhere in it is caught by `except Exception as e`
and produces the 500 degraded response with `str(e)`. -/
def check_spelling (outcome : CapOutcome) (text : String) : Response :=
  match outcome with
  | .raises e => ⟨500, failureBody text e⟩
  | .returns result =>
    match result.checked with
    | .raise e => ⟨500, failureBody text e⟩
    | .ok corrected =>
      match result.errors with
      | .raise e => ⟨500, failureBody text e⟩
      | .ok errors => ⟨200, successBody corrected text errors⟩

/-- The endpoint over an abstract capability: app.py line 17 applies the
capability to the submitted `text` itself, unmodified. -/
def check_spelling_cap (cap : String → CapOutcome) (text : String) : Response :=
  check_spelling (cap text) text

/-- Whether one call's outcome takes the degraded (except) path of the try
block: the call raised, or reading either attribute raised. -/
def CapOutcome.fails : CapOutcome → Bool
  | .raises _ => true
  | .returns result =>
    match result.checked with
    | .raise _ => true
    | .ok _ =>
      match result.errors with
      | .raise _ => true
      | .ok _ => false

/-- C1: for every text input for which the external spellcheck capability
succeeds (the call returns, and both attribute reads succeed), the response
has status 200, its `original` field is the submitted text, its `corrected`
field is the result's checked string, and `result.errata_count` is the
result's errors count. -/
theorem C1_success_response (text checked : String) (errors : Int)
    (result : PyCorrectionResult)
    (h : result = ⟨Attr.ok checked, Attr.ok errors⟩) :
    (check_spelling (CapOutcome.returns result) text).status = 200 ∧
    (check_spelling (CapOutcome.returns result) text).field "original"
      = some (Json.str text) ∧
    (check_spelling (CapOutcome.returns result) text).field "corrected"
      = some (Json.str checked) ∧
    ((check_spelling (CapOutcome.returns result) text).field "result").bind
      (fun j => j.getField "errata_count") = some (Json.int errors) := by
  subst h
  exact ⟨rfl, rfl, rfl, rfl⟩

/-- C1 witness: the success scenario of spec §8 example 2, evaluated. -/
theorem C1_success_response_witness :
    (check_spelling
        (CapOutcome.returns ⟨Attr.ok "나는 밥을 먹었다", Attr.ok 1⟩)
        "나는 밥을먹었다").status = 200 ∧
    (check_spelling
        (CapOutcome.returns ⟨Attr.ok "나는 밥을 먹었다", Attr.ok 1⟩)
        "나는 밥을먹었다").field "original" = some (Json.str "나는 밥을먹었다") ∧
    (check_spelling
        (CapOutcome.returns ⟨Attr.ok "나는 밥을 먹었다", Attr.ok 1⟩)
        "나는 밥을먹었다").field "corrected" = some (Json.str "나는 밥을 먹었다") ∧
    ((check_spelling
        (CapOutcome.returns ⟨Attr.ok "나는 밥을 먹었다", Attr.ok 1⟩)
        "나는 밥을먹었다").field "result").bind
      (fun j => j.getField "errata_count") = some (Json.int 1) :=
  C1_success_response "나는 밥을먹었다" "나는 밥을 먹었다" 1
    ⟨Attr.ok "나는 밥을 먹었다", Attr.ok 1⟩ rfl

/-- C2: for every text input for which the capability call raises, the
response has status 500, its `corrected` and `original` fields are both the
submitted text, and an `error` field carrying the exception description is
present. -/
theorem C2_raise_degraded_response (text msg : String) :
    (check_spelling (CapOutcome.raises msg) text).status = 500 ∧
    (check_spelling (CapOutcome.raises msg) text).field "corrected"
      = some (Json.str text) ∧
    (check_spelling (CapOutcome.raises msg) text).field "original"
      = some (Json.str text) ∧
    (check_spelling (CapOutcome.raises msg) text).field "error"
      = some (Json.str msg) :=
  ⟨rfl, rfl, rfl, rfl⟩

/-- C3 counterexample: the claim says the `error` field of the degraded
response is always a non-empty string, but the code stores `str(e)`
verbatim, and a Python exception can have an empty string representation
(for example `Exception()`).  At text "안녕" with an exception whose
description is empty, the `error` field is the empty string. -/
theorem C3_counterexample :
    ((check_spelling (CapOutcome.raises "") "안녕").field "error").bind
      Json.asString = some "" ∧
    (check_spelling (CapOutcome.raises "") "안녕").status = 500 :=
  ⟨rfl, rfl⟩

/-- C3 amended: the `error` field of the degraded response equals the
raised exception's description verbatim, so it is a non-empty string
whenever that description is non-empty. -/
theorem C3_error_field_is_message (text msg : String) (h : msg ≠ "") :
    ∃ s, (check_spelling (CapOutcome.raises msg) text).field "error"
        = some (Json.str s) ∧ s ≠ "" :=
  ⟨msg, rfl, h⟩

/-- C3 witness: spec §8 example 3, a connection error "timeout" on text
"안녕" yields a non-empty `error` field. -/
theorem C3_error_field_is_message_witness :
    ∃ s, (check_spelling (CapOutcome.raises "timeout") "안녕").field "error"
        = some (Json.str s) ∧ s ≠ "" :=
  C3_error_field_is_message "안녕" "timeout" (by decide)

/-- C4: for every text input and every behaviour of the capability, the
endpoint is a total function (no exception escapes the except clause in the
model) and its value is exactly one of two outcomes: a 200 response with
the success body, or a 500 response with the degraded body for some
message. -/
theorem C4_two_outcomes (outcome : CapOutcome) (text : String) :
    ((∃ checked errors,
        check_spelling outcome text = ⟨200, successBody checked text errors⟩) ∧
      (check_spelling outcome text).status = 200) ∨
    ((∃ msg, check_spelling outcome text = ⟨500, failureBody text msg⟩) ∧
      (check_spelling outcome text).status = 500) := by
  cases outcome with
  | raises e => exact Or.inr ⟨⟨e, rfl⟩, rfl⟩
  | returns result =>
    obtain ⟨checked, errors⟩ := result
    cases checked with
    | raise e => exact Or.inr ⟨⟨e, rfl⟩, rfl⟩
    | ok corrected =>
      cases errors with
      | raise e => exact Or.inr ⟨⟨e, rfl⟩, rfl⟩
      | ok n => exact Or.inl ⟨⟨corrected, n, rfl⟩, rfl⟩

/-- C5: the endpoint consults the capability only at the submitted text
itself: any two capabilities that agree on the submitted text (however
much they differ on every other string, including any modified variant of
the text) produce the same response.  Together with the definition of
check_spelling_cap, which applies the capability to text directly, this
captures that the argument handed to the capability is character-for-
character the submitted text. -/
theorem C5_text_passed_unmodified (cap1 cap2 : String → CapOutcome)
    (text : String) (h : cap1 text = cap2 text) :
    check_spelling_cap cap1 text = check_spelling_cap cap2 text := by
  unfold check_spelling_cap
  rw [h]

/-- C5 witness: two capabilities that agree at "안녕" but differ at every
other string give the same response at "안녕". -/
theorem C5_text_passed_unmodified_witness :
    check_spelling_cap (fun _ => CapOutcome.raises "timeout") "안녕"
      = check_spelling_cap
          (fun s => if s = "안녕" then CapOutcome.raises "timeout"
                    else CapOutcome.raises "other") "안녕" :=
  C5_text_passed_unmodified
    (fun _ => CapOutcome.raises "timeout")
    (fun s => if s = "안녕" then CapOutcome.raises "timeout"
              else CapOutcome.raises "other")
    "안녕" (by simp)

/-- C6 counterexample: the claim says that whenever the capability succeeds
with an errors count of 0, the `corrected` field equals the submitted text;
but the code returns `result.checked` unconditionally, so a capability
result with `errors = 0` and a checked string different from the input
(here checked "가나" on submitted text "다라") makes the `corrected` field
differ from the submitted text. -/
theorem C6_counterexample :
    ((check_spelling (CapOutcome.returns ⟨Attr.ok "가나", Attr.ok 0⟩)
        "다라").field "corrected").bind Json.asString = some "가나" ∧
    "가나" ≠ "다라" :=
  ⟨rfl, by decide⟩

/-- C6 amended: if the capability succeeds with an errors count of 0 and
its checked string equals the submitted text (that is, it really made no
correction), then the `corrected` field equals the submitted text.  The
code forwards `result.checked`, so the round trip holds exactly when the
capability's checked string is the input itself. -/
theorem C6_roundtrip (text checked : String) (errors : Int)
    (_h0 : errors = 0) (hc : checked = text) :
    (check_spelling (CapOutcome.returns ⟨Attr.ok checked, Attr.ok errors⟩)
        text).field "corrected" = some (Json.str text) := by
  subst hc
  rfl

/-- C6 witness: spec §8 example 1, a no-correction success on
"오늘 날씨가 좋아요". -/
theorem C6_roundtrip_witness :
    (check_spelling
        (CapOutcome.returns ⟨Attr.ok "오늘 날씨가 좋아요", Attr.ok 0⟩)
        "오늘 날씨가 좋아요").field "corrected"
      = some (Json.str "오늘 날씨가 좋아요") :=
  C6_roundtrip "오늘 날씨가 좋아요" "오늘 날씨가 좋아요" 0 rfl rfl

/-- C7: with a deterministic capability (the same outcome on both runs,
be it the same result or the same raised error), two invocations on the
identical text yield identical responses: same status and same body.  The
endpoint keeps no state between requests, so the response is a function of
the outcome and the text alone. -/
theorem C7_idempotent (text : String) (o1 o2 : CapOutcome) (h : o1 = o2) :
    check_spelling o1 text = check_spelling o2 text := by
  rw [h]

/-- C7 witness: two runs on "안녕" with the same raised error give the
same response. -/
theorem C7_idempotent_witness :
    check_spelling (CapOutcome.raises "timeout") "안녕"
      = check_spelling (CapOutcome.raises "timeout") "안녕" :=
  C7_idempotent "안녕" (CapOutcome.raises "timeout")
    (CapOutcome.raises "timeout") rfl

/-- C8: for every text input and every capability behaviour, the body
contains both a `corrected` and an `original` field, and it contains an
`error` field if and only if the outcome took the degraded failure path
(the success body has no `error` field). -/
theorem C8_envelope_fields (outcome : CapOutcome) (text : String) :
    ((check_spelling outcome text).field "corrected").isSome = true ∧
    ((check_spelling outcome text).field "original").isSome = true ∧
    (((check_spelling outcome text).field "error").isSome = true ↔
      outcome.fails = true) := by
  cases outcome with
  | raises e => exact ⟨rfl, rfl, Iff.rfl⟩
  | returns result =>
    obtain ⟨checked, errors⟩ := result
    cases checked with
    | raise e => exact ⟨rfl, rfl, Iff.rfl⟩
    | ok corrected =>
      cases errors with
      | raise e => exact ⟨rfl, rfl, Iff.rfl⟩
      | ok n => exact ⟨rfl, rfl, Iff.rfl⟩

/-- C9: failures raised after the capability call returned — reading the
`checked` or `errors` attribute of a malformed result object — are also
caught, because both attribute reads happen inside the try block: the
response is the 500 degraded response built from the first failing read's
message. -/
theorem C9_attribute_failures_caught (text : String)
    (result : PyCorrectionResult)
    (h : (∃ m, result.checked = Attr.raise m) ∨
         (∃ m, result.errors = Attr.raise m)) :
    (check_spelling (CapOutcome.returns result) text).status = 500 ∧
    ∃ m, check_spelling (CapOutcome.returns result) text
        = ⟨500, failureBody text m⟩ := by
  obtain ⟨checked, errors⟩ := result
  cases checked with
  | raise e => exact ⟨rfl, e, rfl⟩
  | ok corrected =>
    cases errors with
    | raise e => exact ⟨rfl, e, rfl⟩
    | ok n =>
      rcases h with ⟨m, hm⟩ | ⟨m, hm⟩ <;> exact absurd hm (by simp)

/-- C9 witness: a result object whose `checked` attribute read raises an
AttributeError is converted to the 500 degraded response. -/
theorem C9_attribute_failures_caught_witness :
    ((∃ m, (⟨Attr.raise "no attribute checked", Attr.ok 0⟩
          : PyCorrectionResult).checked = Attr.raise m) ∨
      (∃ m, (⟨Attr.raise "no attribute checked", Attr.ok 0⟩
          : PyCorrectionResult).errors = Attr.raise m)) ∧
    ((check_spelling
        (CapOutcome.returns
          ⟨Attr.raise "no attribute checked", Attr.ok 0⟩) "안녕").status = 500 ∧
      ∃ m, check_spelling
          (CapOutcome.returns
            ⟨Attr.raise "no attribute checked", Attr.ok 0⟩) "안녕"
          = ⟨500, failureBody "안녕" m⟩) :=
  ⟨Or.inl ⟨"no attribute checked", rfl⟩,
    C9_attribute_failures_caught "안녕"
      ⟨Attr.raise "no attribute checked", Attr.ok 0⟩
      (Or.inl ⟨"no attribute checked", rfl⟩)⟩

/-- C10: the success response forwards the capability's errors count into
`result.errata_count` verbatim, with no validation or clamping: for every
integer, negative values included, exactly that integer appears in the
success body. -/
theorem C10_errata_count_forwarded (text checked : String) (errors : Int) :
    ((check_spelling (CapOutcome.returns ⟨Attr.ok checked, Attr.ok errors⟩)
        text).field "result").bind (fun j => j.getField "errata_count")
      = some (Json.int errors) ∧
    (((check_spelling (CapOutcome.returns ⟨Attr.ok checked, Attr.ok errors⟩)
        text).field "result").bind (fun j => j.getField "errata_count")).bind
      Json.asInt = some errors :=
  ⟨rfl, rfl⟩

end SpellcheckServer
